import Mathlib

/-!
Shallow embedding of the ADS/TwinCAT connection manager
(`custom_components/ads_twincat/hub.py`, class `AdsHub`).

Modelling conventions:
* `AdsState` mirrors the mutable fields of `AdsHub` that the claims touch:
  `_connected`, `_retry_count`, `_reconnect_task` (tracked as a pending flag),
  `_unavailable_logged`, the presence of `self._hass`, and
  `_notification_items` (a dict keyed by `hnotify`, modelled as an ordered
  association list).
* Calls into the `pyads` transport either return a value or raise
  `pyads.ADSError`; this is passed in as an `Except Unit _` oracle argument.
  Every transport call, observer broadcast, scheduling action and log emission
  is recorded in an ordered `List Effect` so that claims such as "performs no
  transport call" or "notifies observers exactly once" are statable.
* `struct.unpack` raises `struct.error` when the buffer length does not match
  the format size; this is the `Except StructError _` result of
  `struct_unpack`.  Bytes are `Nat`s in `[0, 256)`.
-/

namespace AdsHub

/-- PLC data types that can appear as `plc_datatype` arguments.  The named
constructors are the `pyads.PLCTYPE_*` constants referenced by `hub.py`;
`unsupported n` stands for any other ctypes datatype a caller could pass. -/
inductive PlcType where
  | bool
  | byte
  | int
  | uint
  | sint
  | usint
  | dint
  | udint
  | word
  | dword
  | lreal
  | real
  | string
  | tod
  | date
  | dt
  | time
  | unsupported (n : Nat)
deriving DecidableEq, Repr

/-- Values produced by the notification payload decoder.  Floating point
results are kept as their raw IEEE-754 little-endian bit patterns
(`struct.unpack` is injective on those bits, so this is bit-faithful). -/
inductive Value where
  | vBool (b : Bool)
  | vInt (i : Int)
  | vFloat32 (bits : Nat)
  | vFloat64 (bits : Nat)
  | vStr (s : String)
  | vRaw (bs : List Nat)
deriving DecidableEq, Repr

/-- Observable actions of `AdsHub` methods, in program order: calls into the
pyads transport, observer broadcasts, reconnect scheduling/cancellation, the
user callback of a notification item, and log emissions. -/
inductive Effect where
  | transportOpen
  | transportReadState
  | transportRead (name : String)
  | transportWrite (name : String) (v : Value)
  | transportAddNotif (name : String)
  | transportDelNotif (hnotify huser : Nat)
  | transportClose
  | notifyObservers (connected : Bool)
  | scheduleReconnect (delay : Nat)
  | cancelReconnect
  | callback (name : String) (v : Value)
  | logError
  | logWarning
  | logInfo
  | logDebug
deriving DecidableEq, Repr

/-- True exactly for the effects that are calls into the transport. -/
def Effect.isTransport : Effect → Bool
  | .transportOpen => true
  | .transportReadState => true
  | .transportRead _ => true
  | .transportWrite _ _ => true
  | .transportAddNotif _ => true
  | .transportDelNotif _ _ => true
  | .transportClose => true
  | _ => false

/-- Mirror of the `NotificationItem` namedtuple (the Python callback field is
represented by the `callback` effect emitted on dispatch). -/
structure NotificationItem where
  hnotify : Nat
  huser : Nat
  name : String
  plc_datatype : PlcType
deriving DecidableEq, Repr

/-- Mirror of the mutable `AdsHub` state. `reconnect_task` is `true` iff
`self._reconnect_task is not None`; `hass` is `true` iff a host scheduler was
supplied at construction. -/
structure AdsState where
  connected : Bool
  retry_count : Nat
  reconnect_task : Bool
  unavailable_logged : Bool
  hass : Bool
  notification_items : List NotificationItem
deriving DecidableEq, Repr

/-- Constant `CONNECTION_RETRY_INTERVAL` from `const.py`. -/
def CONNECTION_RETRY_INTERVAL : List Nat := [1, 2, 4, 8, 16, 32, 60]

/-- Model of `AdsHub._schedule_reconnect`: no-op without a host scheduler or when a
task is already pending; otherwise picks
`CONNECTION_RETRY_INTERVAL[min(retry_count, len - 1)]` and schedules. -/
def schedule_reconnect (s : AdsState) : AdsState × List Effect :=
  if !s.hass || s.reconnect_task then
    (s, [])
  else
    let retry_index := min s.retry_count (CONNECTION_RETRY_INTERVAL.length - 1)
    let retry_interval := CONNECTION_RETRY_INTERVAL.getD retry_index 0
    ({ s with reconnect_task := true },
      [Effect.logDebug, Effect.scheduleReconnect retry_interval])

/-- Model of `AdsHub.read_by_name`.  `tr` is the transport oracle: `.error ()` when
`self._client.read_by_name` raises `pyads.ADSError`, `.ok r` when it returns
the Python value `r` (itself possibly `None`, hence `Option Value`). -/
def read_by_name (s : AdsState) (tr : Except Unit (Option Value))
    (name : String) (plc_datatype : PlcType) :
    Option Value × AdsState × List Effect :=
  if !s.connected then
    (none, s, [Effect.logError])
  else
    match tr with
    | .ok r => (r, s, [Effect.transportRead name])
    | .error _ =>
      let s1 := { s with connected := false }
      let p := schedule_reconnect s1
      (none, p.1, [Effect.transportRead name, Effect.logError] ++ p.2)

/-- Model of `AdsHub.write_by_name`, with the same transport-oracle convention as
`read_by_name` (pyads `write_by_name` returns `None`, i.e. `.ok none`). -/
def write_by_name (s : AdsState) (tr : Except Unit (Option Value))
    (name : String) (value : Value) (plc_datatype : PlcType) :
    Option Value × AdsState × List Effect :=
  if !s.connected then
    (none, s, [Effect.logError])
  else
    match tr with
    | .ok r => (r, s, [Effect.transportWrite name value])
    | .error _ =>
      let s1 := { s with connected := false }
      let p := schedule_reconnect s1
      (none, p.1, [Effect.transportWrite name value, Effect.logError] ++ p.2)

/-- Python dict assignment `self._notification_items[hnotify] = item`:
replaces an existing entry with the same key, otherwise appends. -/
def insertItem (items : List NotificationItem) (item : NotificationItem) :
    List NotificationItem :=
  if items.any (fun it => it.hnotify == item.hnotify) then
    items.map (fun it => if it.hnotify == item.hnotify then item else it)
  else
    items ++ [item]

/-- Model of `AdsHub.add_device_notification`.  `tr` yields the `(hnotify, huser)` pair
returned by the transport, or `.error ()` on `pyads.ADSError`.  The Python
method returns `None` on every path (bare `return` / fall-through), hence the
constant `none` first component. -/
def add_device_notification (s : AdsState) (tr : Except Unit (Nat × Nat))
    (name : String) (plc_datatype : PlcType) :
    Option Value × AdsState × List Effect :=
  if !s.connected then
    (none, s, [Effect.logError])
  else
    match tr with
    | .error _ =>
      let s1 := { s with connected := false }
      let p := schedule_reconnect s1
      (none, p.1, [Effect.transportAddNotif name, Effect.logError] ++ p.2)
    | .ok (hnotify, huser) =>
      let item : NotificationItem := ⟨hnotify, huser, name, plc_datatype⟩
      let items := insertItem s.notification_items item
      (none, { s with notification_items := items },
        [Effect.transportAddNotif name, Effect.logDebug])

/-- Model of `AdsHub.shutdown`.  `delOk h hu` is `true` when
`del_device_notification h hu` does not raise; `closeOk` likewise for
`self._client.close()`.  Every `pyads.ADSError` is caught and logged, so the
function is total: no error escapes.  Note the source never removes entries
from `self._notification_items`. -/
def shutdown (s : AdsState) (delOk : Nat → Nat → Bool) (closeOk : Bool) :
    AdsState × List Effect :=
  let cancelStep :=
    if s.reconnect_task then
      ({ s with reconnect_task := false }, [Effect.cancelReconnect])
    else
      (s, [])
  let s1 := cancelStep.1
  let delEffs := s1.notification_items.flatMap (fun it =>
    [Effect.logDebug, Effect.transportDelNotif it.hnotify it.huser] ++
      (if delOk it.hnotify it.huser then [] else [Effect.logError]))
  let closeStep :=
    if closeOk then
      ({ s1 with connected := false }, [Effect.transportClose])
    else
      (s1, [Effect.transportClose, Effect.logError])
  (closeStep.1, Effect.logDebug :: cancelStep.2 ++ delEffs ++ closeStep.2)

/-- Model of `AdsHub._try_reconnect`.  `openOk` / `readOk` tell whether
`self._client.open()` / `self._client.read_state()` raise.  The body only runs
when `not self._connected`. -/
def try_reconnect (s : AdsState) (openOk readOk : Bool) :
    AdsState × List Effect :=
  if !s.connected then
    if openOk && readOk then
      ({ s with connected := true, retry_count := 0, unavailable_logged := false },
        [Effect.transportOpen, Effect.transportReadState, Effect.logInfo] ++
          (if s.unavailable_logged then [Effect.logInfo] else []) ++
          [Effect.notifyObservers true])
    else
      let s1 := { s with retry_count := s.retry_count + 1, connected := false, unavailable_logged := true }
      let p := schedule_reconnect s1
      (p.1,
        (if openOk then [Effect.transportOpen, Effect.transportReadState]
          else [Effect.transportOpen]) ++
          [Effect.logDebug] ++
          (if s.unavailable_logged then [] else [Effect.logInfo]) ++ p.2)
  else
    (s, [])

/-- Model of `AdsHub.check_connection`: probes via `read_state` under the lock and
returns the resulting liveness. -/
def check_connection (s : AdsState) (readOk : Bool) :
    Bool × AdsState × List Effect :=
  if readOk then
    if !s.connected then
      (true,
        { s with connected := true, retry_count := 0, unavailable_logged := false },
        [Effect.transportReadState, Effect.logInfo] ++
          (if s.unavailable_logged then [Effect.logInfo] else []) ++
          [Effect.notifyObservers true])
    else
      (true, s, [Effect.transportReadState])
  else
    if s.connected then
      let s1 := { s with connected := false, unavailable_logged := true }
      let p := schedule_reconnect s1
      (false, p.1,
        [Effect.transportReadState, Effect.logError] ++
          (if s.unavailable_logged then [] else [Effect.logInfo]) ++
          [Effect.notifyObservers false] ++ p.2)
    else
      (false, s, [Effect.transportReadState])

/-- Validity range for the second byte of a 3-byte UTF-8 sequence with lead
byte `b1` (surrogates and overlong forms excluded, as CPython does). -/
def utf8Cont3 (b1 b2 : Nat) : Bool :=
  if b1 == 0xE0 then 0xA0 ≤ b2 && b2 ≤ 0xBF
  else if b1 == 0xED then 0x80 ≤ b2 && b2 ≤ 0x9F
  else 0x80 ≤ b2 && b2 ≤ 0xBF

/-- Validity range for the second byte of a 4-byte UTF-8 sequence with lead
byte `b1`. -/
def utf8Cont4 (b1 b2 : Nat) : Bool :=
  if b1 == 0xF0 then 0x90 ≤ b2 && b2 ≤ 0xBF
  else if b1 == 0xF4 then 0x80 ≤ b2 && b2 ≤ 0x8F
  else 0x80 ≤ b2 && b2 ≤ 0xBF

/-- Fuelled worker for the UTF-8 decoder: valid sequences decode to their
code point, invalid lead or continuation bytes are skipped without failing.
The fuel only needs to dominate the list length; each step consumes at least
one byte and one unit of fuel. -/
def utf8CharsAux : Nat → List Nat → List Char
  | 0, _ => []
  | _ + 1, [] => []
  | fuel + 1, b1 :: rest =>
    if b1 < 0x80 then
      Char.ofNat b1 :: utf8CharsAux fuel rest
    else if 0xC2 ≤ b1 && b1 ≤ 0xDF then
      match rest with
      | b2 :: rest2 =>
        if 0x80 ≤ b2 && b2 ≤ 0xBF then
          Char.ofNat ((b1 - 0xC0) * 0x40 + (b2 - 0x80)) ::
            utf8CharsAux fuel rest2
        else
          utf8CharsAux fuel rest
      | [] => []
    else if 0xE0 ≤ b1 && b1 ≤ 0xEF then
      match rest with
      | b2 :: b3 :: rest3 =>
        if utf8Cont3 b1 b2 && 0x80 ≤ b3 && b3 ≤ 0xBF then
          Char.ofNat ((b1 - 0xE0) * 0x1000 + (b2 - 0x80) * 0x40 + (b3 - 0x80))
            :: utf8CharsAux fuel rest3
        else
          utf8CharsAux fuel rest
      | _ => utf8CharsAux fuel rest
    else if 0xF0 ≤ b1 && b1 ≤ 0xF4 then
      match rest with
      | b2 :: b3 :: b4 :: rest4 =>
        if utf8Cont4 b1 b2 && 0x80 ≤ b3 && b3 ≤ 0xBF &&
            0x80 ≤ b4 && b4 ≤ 0xBF then
          Char.ofNat ((b1 - 0xF0) * 0x40000 + (b2 - 0x80) * 0x1000 +
              (b3 - 0x80) * 0x40 + (b4 - 0x80)) :: utf8CharsAux fuel rest4
        else
          utf8CharsAux fuel rest
      | _ => utf8CharsAux fuel rest
    else
      utf8CharsAux fuel rest

/-- Python `bytes.decode("utf-8", errors="ignore")`. -/
def utf8DecodeIgnore (bs : List Nat) : String :=
  String.mk (utf8CharsAux bs.length bs)

/-- Little-endian value of a byte list, least significant byte first. -/
def leDecode (bs : List Nat) : Nat :=
  bs.foldr (fun b acc => b + 256 * acc) 0

/-- Complement (twos) reading of an unsigned `bits`-wide value. -/
def toSigned (bits n : Nat) : Int :=
  if n < 2 ^ (bits - 1) then (n : Int) else (n : Int) - 2 ^ bits

/-- Failure of Python `struct.unpack`: the buffer length differs from the
size of the format. -/
inductive StructError where
  | sizeMismatch
deriving DecidableEq, Repr

/-- Model of `struct.unpack(fmt, buffer)[0]` for the little-endian format
strings used by `hub.py`.  Raises (returns `.error`) when the buffer length
does not equal the format size, as the CPython `struct.error` does. -/
def struct_unpack (fmt : String) (bs : List Nat) : Except StructError Value :=
  if fmt = "<?" then
    if bs.length = 1 then .ok (.vBool (leDecode bs != 0))
    else .error .sizeMismatch
  else if fmt = "<b" then
    if bs.length = 1 then .ok (.vInt (toSigned 8 (leDecode bs)))
    else .error .sizeMismatch
  else if fmt = "<B" then
    if bs.length = 1 then .ok (.vInt (leDecode bs))
    else .error .sizeMismatch
  else if fmt = "<h" then
    if bs.length = 2 then .ok (.vInt (toSigned 16 (leDecode bs)))
    else .error .sizeMismatch
  else if fmt = "<H" then
    if bs.length = 2 then .ok (.vInt (leDecode bs))
    else .error .sizeMismatch
  else if fmt = "<i" then
    if bs.length = 4 then .ok (.vInt (toSigned 32 (leDecode bs)))
    else .error .sizeMismatch
  else if fmt = "<I" then
    if bs.length = 4 then .ok (.vInt (leDecode bs))
    else .error .sizeMismatch
  else if fmt = "<f" then
    if bs.length = 4 then .ok (.vFloat32 (leDecode bs))
    else .error .sizeMismatch
  else if fmt = "<d" then
    if bs.length = 8 then .ok (.vFloat64 (leDecode bs))
    else .error .sizeMismatch
  else
    .error .sizeMismatch

/-- The `unpack_formats` dict of `_device_notification_callback` as it exists
at runtime.  The dict literal is keyed by `pyads.PLCTYPE_*` constants, which
are ctypes classes, and several keys alias the same class:
`PLCTYPE_BYTE` and `PLCTYPE_USINT` are both `ctypes.c_ubyte`, so under the
last-key-wins semantics of a Python dict literal the later `"<B"` entry
overwrites the earlier `"<b"` one and the byte tag decodes unsigned.  The
other collisions (`UINT`/`WORD` on `c_uint16`, `UDINT`/`DWORD` on `c_uint32`,
`DINT`/`TOD`/`DATE`/`DT`/`TIME` on `c_int32`) all carry identical format
values.  `none` for types absent from the dict. -/
def unpack_formats : PlcType → Option String
  | .byte => some "<B"
  | .int => some "<h"
  | .uint => some "<H"
  | .sint => some "<b"
  | .usint => some "<B"
  | .dint => some "<i"
  | .udint => some "<I"
  | .word => some "<H"
  | .dword => some "<I"
  | .lreal => some "<d"
  | .real => some "<f"
  | .tod => some "<i"
  | .date => some "<i"
  | .dt => some "<i"
  | .time => some "<i"
  | _ => none

/-- Payload parsing step of `_device_notification_callback`.  The `Bool`
component records whether the unsupported-datatype warning was logged.
String decoding mirrors `bytearray(data).split(b"\x00", 1)[0].decode("utf-8",
errors="ignore")`; integer/float decoding goes through `struct.unpack`, whose
`struct.error` propagates as `.error`. -/
def decodeValue (plc_datatype : PlcType) (data : List Nat) :
    Except StructError (Value × Bool) :=
  if plc_datatype = .bool then
    (struct_unpack "<?" data).map (fun v => (v, false))
  else if plc_datatype = .string then
    .ok (.vStr (utf8DecodeIgnore (data.takeWhile (fun b => b != 0))), false)
  else
    match unpack_formats plc_datatype with
    | some fmt => (struct_unpack fmt data).map (fun v => (v, false))
    | none => .ok (.vRaw data, true)

/-- Model of `AdsHub._device_notification_callback` from the point where the handle and
payload bytes have been extracted from the ctypes frame: look up the
notification item (under the lock), drop unknown handles with an error log,
else decode and invoke the callback of the item. -/
def device_notification_callback (s : AdsState) (hnotify : Nat)
    (data : List Nat) : Except StructError (AdsState × List Effect) :=
  match s.notification_items.find? (fun it => it.hnotify == hnotify) with
  | none => .ok (s, [Effect.logDebug, Effect.logError])
  | some item =>
    match decodeValue item.plc_datatype data with
    | .error e => .error e
    | .ok (v, warned) =>
      .ok (s, [Effect.logDebug] ++
        (if warned then [Effect.logWarning] else []) ++
        [Effect.callback item.name v])

/-- Byte size of each `struct` format string used by `hub.py`. -/
def fmtSize : String → Nat
  | "<?" => 1
  | "<b" => 1
  | "<B" => 1
  | "<h" => 2
  | "<H" => 2
  | "<i" => 4
  | "<I" => 4
  | "<f" => 4
  | "<d" => 8
  | _ => 0

/-- Boolean success test for `Except` results of the decoder. -/
def isOkE {α β : Type} : Except α β → Bool
  | .ok _ => true
  | .error _ => false

/-- Number of observer broadcasts with liveness value `b` in an effect list. -/
def countNotify (b : Bool) (effs : List Effect) : Nat :=
  effs.countP (fun e => e == Effect.notifyObservers b)

/-- Sample state: disconnected hub with a host scheduler and no pending task. -/
def sDisc : AdsState := ⟨false, 0, false, false, true, []⟩

/-- Sample state: connected hub with a host scheduler and no pending task. -/
def sConn : AdsState := ⟨true, 0, false, false, true, []⟩

/-- C1: for every variable name and type tag, `read_by_name` and
`write_by_name` invoked while `connected = false` return the NotConnected
failure result `None`, leave the state untouched, and perform no transport
call at all (whatever the transport oracle would have answered). -/
theorem C1_fail_fast_not_connected (s : AdsState)
    (tr trw : Except Unit (Option Value)) (name : String) (v : Value)
    (pt : PlcType) (h : s.connected = false) :
    read_by_name s tr name pt = (none, s, [Effect.logError]) ∧
    write_by_name s trw name v pt = (none, s, [Effect.logError]) ∧
    ((read_by_name s tr name pt).2.2 ++
        (write_by_name s trw name v pt).2.2).all
      (fun e => !e.isTransport) = true := by
  refine ⟨?_, ?_, ?_⟩ <;>
    simp [read_by_name, write_by_name, h, Effect.isTransport]

/-- Witness for C1 at a concrete disconnected state. -/
theorem C1_fail_fast_witness :
    read_by_name sDisc (.ok (some (.vInt 1))) "var" .int =
      (none, sDisc, [Effect.logError]) ∧
    write_by_name sDisc (.ok none) "var" (.vInt 1) .int =
      (none, sDisc, [Effect.logError]) ∧
    ((read_by_name sDisc (.ok (some (.vInt 1))) "var" .int).2.2 ++
        (write_by_name sDisc (.ok none) "var" (.vInt 1) .int).2.2).all
      (fun e => !e.isTransport) = true :=
  C1_fail_fast_not_connected sDisc (.ok (some (.vInt 1))) (.ok none) "var"
    (.vInt 1) .int rfl

/-- C2: whenever `_schedule_reconnect` actually schedules (host scheduler
present, no task pending), the chosen delay is
`CONNECTION_RETRY_INTERVAL[min(retry_count, 6)]` for the table
`[1, 2, 4, 8, 16, 32, 60]`, and from `retry_count ≥ 6` on it stays at the
cap of 60 seconds. -/
theorem C2_backoff_table (s : AdsState) (h1 : s.hass = true)
    (h2 : s.reconnect_task = false) :
    (schedule_reconnect s).2 =
      [Effect.logDebug, Effect.scheduleReconnect
        (List.getD [1, 2, 4, 8, 16, 32, 60] (min s.retry_count 6) 0)] ∧
    (schedule_reconnect { s with retry_count := s.retry_count + 6 }).2 =
      [Effect.logDebug, Effect.scheduleReconnect 60] := by
  constructor
  · simp [schedule_reconnect, h1, h2, CONNECTION_RETRY_INTERVAL]
  · have hmin : min (s.retry_count + 6) 6 = 6 := by omega
    simp [schedule_reconnect, h1, h2, CONNECTION_RETRY_INTERVAL, hmin]

/-- Witness for C2 at a concrete state with `retry_count = 9`. -/
theorem C2_backoff_witness :
    (schedule_reconnect { sDisc with retry_count := 9 }).2 =
      [Effect.logDebug, Effect.scheduleReconnect
        (List.getD [1, 2, 4, 8, 16, 32, 60] (min 9 6) 0)] ∧
    (schedule_reconnect { { sDisc with retry_count := 9 } with
        retry_count := 9 + 6 }).2 =
      [Effect.logDebug, Effect.scheduleReconnect 60] :=
  C2_backoff_table { sDisc with retry_count := 9 } rfl rfl

/-- C3 counterexample: in a connected state with a host scheduler, a
transport protocol error during `read_by_name` flips `connected` to false and
schedules a reconnect, but — contrary to the claim — fires no observer
notification: `notifyObservers false` is absent from the emitted effects. -/
theorem C3_no_observer_counterexample :
    (read_by_name sConn (.error ()) "var" .int).2.1.connected = false ∧
    (read_by_name sConn (.error ()) "var" .int).2.2 =
      [Effect.transportRead "var", Effect.logError, Effect.logDebug,
        Effect.scheduleReconnect 1] ∧
    Effect.notifyObservers false ∉
      (read_by_name sConn (.error ()) "var" .int).2.2 := by
  refine ⟨rfl, rfl, by decide⟩

/-- C3 (amended): a transport protocol error during `read_by_name` or
`write_by_name` in a connected state (scheduler present, no task pending)
flips `connected` to false, schedules exactly one reconnection attempt at the
backoff delay, and returns the failure result `None` after exactly one
transport call (no internal retry); no observer notification is fired. -/
theorem C3_protocol_error_disconnects (s : AdsState) (name : String)
    (v : Value) (pt : PlcType) (h : s.connected = true) (h2 : s.hass = true)
    (h3 : s.reconnect_task = false) :
    read_by_name s (.error ()) name pt =
      (none, { s with connected := false, reconnect_task := true },
        [Effect.transportRead name, Effect.logError, Effect.logDebug,
          Effect.scheduleReconnect
            (List.getD [1, 2, 4, 8, 16, 32, 60] (min s.retry_count 6) 0)]) ∧
    write_by_name s (.error ()) name v pt =
      (none, { s with connected := false, reconnect_task := true },
        [Effect.transportWrite name v, Effect.logError, Effect.logDebug,
          Effect.scheduleReconnect
            (List.getD [1, 2, 4, 8, 16, 32, 60] (min s.retry_count 6) 0)]) := by
  constructor <;>
    simp [read_by_name, write_by_name, schedule_reconnect, h, h2, h3,
      CONNECTION_RETRY_INTERVAL]

/-- Witness for C3 (amended) at a concrete connected state. -/
theorem C3_protocol_error_witness :
    read_by_name sConn (.error ()) "var" .int =
      (none, { sConn with connected := false, reconnect_task := true },
        [Effect.transportRead "var", Effect.logError, Effect.logDebug,
          Effect.scheduleReconnect
            (List.getD [1, 2, 4, 8, 16, 32, 60] (min sConn.retry_count 6) 0)]) ∧
    write_by_name sConn (.error ()) "var" (.vInt 1) .int =
      (none, { sConn with connected := false, reconnect_task := true },
        [Effect.transportWrite "var" (.vInt 1), Effect.logError,
          Effect.logDebug,
          Effect.scheduleReconnect
            (List.getD [1, 2, 4, 8, 16, 32, 60] (min sConn.retry_count 6) 0)]) :=
  C3_protocol_error_disconnects sConn "var" (.vInt 1) .int rfl rfl rfl

/-- C4 counterexample: after `shutdown` on a hub with one registered
notification item (all transport calls succeeding), the item is still present
in `_notification_items` — the registry is not emptied, contrary to the
claim that shutdown removes the unregistered descriptors. -/
theorem C4_registry_kept_counterexample :
    ((shutdown ⟨false, 0, false, false, true, [⟨5, 7, "var", .int⟩]⟩
        (fun _ _ => true) true).1).notification_items =
      [⟨5, 7, "var", .int⟩] ∧
    ((shutdown ⟨false, 0, false, false, true, [⟨5, 7, "var", .int⟩]⟩
        (fun _ _ => true) true).1).notification_items ≠ [] := by
  refine ⟨rfl, by decide⟩

/-- C4 (amended): `shutdown` cancels any pending reconnection task, attempts
to unregister every registered descriptor from the transport — continuing
past individual unregister failures (`delOk` arbitrary) — closes the Session,
and sets `connected = false`; the descriptors are, however, left in the
registry.  All transport errors are absorbed, so a second `shutdown` does not
error: it reproduces the same final state while the Session was already
closed by the first call. -/
theorem C4_shutdown_cleanup (s : AdsState) (delOk : Nat → Nat → Bool) :
    ((shutdown s delOk true).1).reconnect_task = false ∧
    ((shutdown s delOk true).1).connected = false ∧
    ((shutdown s delOk true).1).notification_items = s.notification_items ∧
    (∀ it ∈ s.notification_items,
      Effect.transportDelNotif it.hnotify it.huser ∈ (shutdown s delOk true).2) ∧
    Effect.transportClose ∈ (shutdown s delOk true).2 ∧
    (shutdown (shutdown s delOk true).1 delOk true).1 =
      (shutdown s delOk true).1 ∧
    Effect.transportClose ∈ (shutdown (shutdown s delOk true).1 delOk true).2 := by
  cases hr : s.reconnect_task <;>
    refine ⟨?_, ?_, ?_, ?_, ?_, ?_, ?_⟩ <;>
      simp [shutdown, hr, List.mem_flatMap] <;>
        exact fun it hit => ⟨it, hit, rfl, rfl⟩

/-- Witness for C4 at a concrete state with one registered item and a failing
unregistration. -/
theorem C4_shutdown_witness :
    Effect.transportDelNotif 5 7 ∈
      (shutdown ⟨true, 2, true, true, true, [⟨5, 7, "var", .int⟩]⟩
        (fun _ _ => false) true).2 :=
  (C4_shutdown_cleanup ⟨true, 2, true, true, true, [⟨5, 7, "var", .int⟩]⟩
      (fun _ _ => false)).2.2.2.1 ⟨5, 7, "var", .int⟩ (by simp)

/-- C5 counterexample: dispatching a notification for a registered boolean
item with an empty payload buffer makes the decoder raise `struct.error`
(size mismatch) — dispatch is not total over arbitrary buffers, contrary to
the claim. -/
theorem C5_not_total_counterexample :
    device_notification_callback
      ⟨true, 0, false, false, true, [⟨7, 1, "flag", .bool⟩]⟩ 7 [] =
      .error .sizeMismatch := by
  rfl

/-- C5 (amended): the payload decoder is total for the string tag and for
every tag outside the decode table (which yields the raw byte buffer
unchanged plus an unsupported-type warning, for any buffer); for the boolean
tag and the fixed-width tags it produces a value exactly when the buffer
length equals the byte size of the format, and fails the dispatch with
`struct.error` otherwise. -/
theorem C5_decoder_totality (pt : PlcType) (data : List Nat) :
    (pt = .string → isOkE (decodeValue pt data) = true) ∧
    (∀ n, decodeValue (.unsupported n) data = .ok (.vRaw data, true)) ∧
    (pt = .bool → (isOkE (decodeValue pt data) = true ↔ data.length = 1)) ∧
    (∀ fmt, unpack_formats pt = some fmt →
      (isOkE (decodeValue pt data) = true ↔ data.length = fmtSize fmt)) := by
  refine ⟨?_, ?_, ?_, ?_⟩
  · rintro rfl
    simp [decodeValue, isOkE]
  · intro n
    simp [decodeValue, unpack_formats]
  · rintro rfl
    by_cases hl : data.length = 1 <;>
      simp [decodeValue, struct_unpack, isOkE, Except.map, hl]
  · intro fmt hfmt
    have hdeleg : decodeValue pt data =
        (struct_unpack fmt data).map (fun v => (v, false)) := by
      cases pt <;> simp_all [decodeValue, unpack_formats]
    have hmem : fmt ∈
        (["<?", "<b", "<B", "<h", "<H", "<i", "<I", "<f", "<d"] :
          List String) := by
      cases pt <;> simp_all [unpack_formats]
    have hmap : isOkE ((struct_unpack fmt data).map (fun v => (v, false))) =
        isOkE (struct_unpack fmt data) := by
      cases struct_unpack fmt data <;> rfl
    rw [hdeleg, hmap]
    clear hdeleg hmap hfmt
    fin_cases hmem <;>
      first
        | ((by_cases hl : data.length = 1 <;>
            simp [struct_unpack, isOkE, fmtSize, hl]); done)
        | ((by_cases hl : data.length = 2 <;>
            simp [struct_unpack, isOkE, fmtSize, hl]); done)
        | ((by_cases hl : data.length = 4 <;>
            simp [struct_unpack, isOkE, fmtSize, hl]); done)
        | ((by_cases hl : data.length = 8 <;>
            simp [struct_unpack, isOkE, fmtSize, hl]); done)

/-- Witness for C5: concrete consequences at a string payload, an unsupported
tag, and a boolean buffer of the right size. -/
theorem C5_decoder_witness :
    isOkE (decodeValue .string [72, 105]) = true ∧
    decodeValue (.unsupported 3) [9, 9] = .ok (.vRaw [9, 9], true) ∧
    (isOkE (decodeValue .bool [1]) = true ↔ [1].length = 1) ∧
    (isOkE (decodeValue .int [1, 2]) = true ↔ [1, 2].length = fmtSize "<h") :=
  ⟨(C5_decoder_totality .string [72, 105]).1 rfl,
    (C5_decoder_totality (.unsupported 3) [9, 9]).2.1 3,
    (C5_decoder_totality .bool [1]).2.2.1 rfl,
    (C5_decoder_totality .int [1, 2]).2.2.2 "<h" rfl⟩

/-- Little-endian encoder: the `width`-byte encoding of an unsigned value,
least significant byte first (the inverse of `leDecode` below the width
bound).  Signed values are encoded through their residue
`(i % 2 ^ (8 * width)).toNat`, the standard two-complement byte image. -/
def leEncode : Nat → Nat → List Nat
  | 0, _ => []
  | w + 1, n => n % 256 :: leEncode w (n / 256)

/-- Helper: an encoded buffer has exactly the requested width. -/
theorem leEncode_length (w n : Nat) : (leEncode w n).length = w := by
  induction w generalizing n with
  | zero => rfl
  | succ w ih => simp [leEncode, ih]

/-- Helper: decoding inverts encoding below the width bound. -/
theorem leDecode_leEncode (w n : Nat) (h : n < 256 ^ w) :
    leDecode (leEncode w n) = n := by
  induction w generalizing n with
  | zero =>
    have hn : n = 0 := by simpa using h
    simp [hn, leEncode, leDecode]
  | succ w ih =>
    have hdiv : n / 256 < 256 ^ w := by
      rw [pow_succ] at h
      omega
    have hstep : leDecode (n % 256 :: leEncode w (n / 256)) =
        n % 256 + 256 * leDecode (leEncode w (n / 256)) := rfl
    simp only [leEncode, hstep, ih _ hdiv]
    omega

/-- C6: for each tag in the runtime decode table, encoding a representative
value at the declared width, signedness and little-endian byte order and then
decoding yields the original value exactly — every in-range unsigned value
for the unsigned tags (`BYTE`/`USINT` 8-bit, `UINT`/`WORD` 16-bit,
`UDINT`/`DWORD` 32-bit, all decoding as unsigned), every in-range signed
value for `SINT`/`INT`/`DINT` and the time/date aliases, the exact IEEE-754
bit pattern for `REAL`/`LREAL`, both boolean bytes, and exact text for an
ASCII string. -/
theorem C6_decode_roundtrip (n8 n16 n32 b32 b64 : Nat) (i8 i16 i32 : Int)
    (h8 : n8 < 256) (h16 : n16 < 65536) (h32 : n32 < 4294967296)
    (hb32 : b32 < 4294967296) (hb64 : b64 < 18446744073709551616)
    (hi8l : -128 ≤ i8) (hi8u : i8 < 128)
    (hi16l : -32768 ≤ i16) (hi16u : i16 < 32768)
    (hi32l : -2147483648 ≤ i32) (hi32u : i32 < 2147483648) :
    decodeValue .byte (leEncode 1 n8) = .ok (.vInt n8, false) ∧
    decodeValue .usint (leEncode 1 n8) = .ok (.vInt n8, false) ∧
    decodeValue .uint (leEncode 2 n16) = .ok (.vInt n16, false) ∧
    decodeValue .word (leEncode 2 n16) = .ok (.vInt n16, false) ∧
    decodeValue .udint (leEncode 4 n32) = .ok (.vInt n32, false) ∧
    decodeValue .dword (leEncode 4 n32) = .ok (.vInt n32, false) ∧
    decodeValue .sint (leEncode 1 ((i8 % 256).toNat)) =
      .ok (.vInt i8, false) ∧
    decodeValue .int (leEncode 2 ((i16 % 65536).toNat)) =
      .ok (.vInt i16, false) ∧
    decodeValue .dint (leEncode 4 ((i32 % 4294967296).toNat)) =
      .ok (.vInt i32, false) ∧
    decodeValue .tod (leEncode 4 ((i32 % 4294967296).toNat)) =
      .ok (.vInt i32, false) ∧
    decodeValue .date (leEncode 4 ((i32 % 4294967296).toNat)) =
      .ok (.vInt i32, false) ∧
    decodeValue .dt (leEncode 4 ((i32 % 4294967296).toNat)) =
      .ok (.vInt i32, false) ∧
    decodeValue .time (leEncode 4 ((i32 % 4294967296).toNat)) =
      .ok (.vInt i32, false) ∧
    decodeValue .real (leEncode 4 b32) = .ok (.vFloat32 b32, false) ∧
    decodeValue .lreal (leEncode 8 b64) = .ok (.vFloat64 b64, false) ∧
    decodeValue .bool (leEncode 1 1) = .ok (.vBool true, false) ∧
    decodeValue .bool (leEncode 1 0) = .ok (.vBool false, false) ∧
    decodeValue .string [79, 75, 0] = .ok (.vStr "OK", false) := by
  have d8 : leDecode (leEncode 1 n8) = n8 :=
    leDecode_leEncode 1 n8 (by simpa using h8)
  have d16 : leDecode (leEncode 2 n16) = n16 :=
    leDecode_leEncode 2 n16 (by norm_num [h16])
  have d32 : leDecode (leEncode 4 n32) = n32 :=
    leDecode_leEncode 4 n32 (by norm_num [h32])
  have db32 : leDecode (leEncode 4 b32) = b32 :=
    leDecode_leEncode 4 b32 (by norm_num [hb32])
  have db64 : leDecode (leEncode 8 b64) = b64 :=
    leDecode_leEncode 8 b64 (by norm_num [hb64])
  have ds8 : leDecode (leEncode 1 ((i8 % 256).toNat)) = (i8 % 256).toNat :=
    leDecode_leEncode 1 _ (by simp; omega)
  have ds16 : leDecode (leEncode 2 ((i16 % 65536).toNat)) =
      (i16 % 65536).toNat :=
    leDecode_leEncode 2 _ (by norm_num; omega)
  have ds32 : leDecode (leEncode 4 ((i32 % 4294967296).toNat)) =
      (i32 % 4294967296).toNat :=
    leDecode_leEncode 4 _ (by norm_num; omega)
  refine ⟨?_, ?_, ?_, ?_, ?_, ?_, ?_, ?_, ?_, ?_, ?_, ?_, ?_, ?_, ?_,
    rfl, rfl, rfl⟩ <;>
    simp [decodeValue, unpack_formats, struct_unpack, leEncode_length,
      Except.map, d8, d16, d32, db32, db64, ds8, ds16, ds32, toSigned] <;>
      (split <;> omega)

/-- Witness for C6: the unsigned byte 200 and the signed byte -56 both round
trip through their one-byte encodings. -/
theorem C6_decode_witness :
    decodeValue .byte (leEncode 1 200) = .ok (.vInt 200, false) ∧
    decodeValue .sint (leEncode 1 (((-56 : Int) % 256).toNat)) =
      .ok (.vInt (-56), false) :=
  ⟨(C6_decode_roundtrip 200 0 0 0 0 (-56) 0 0 (by norm_num) (by norm_num)
      (by norm_num) (by norm_num) (by norm_num) (by norm_num) (by norm_num)
      (by norm_num) (by norm_num) (by norm_num) (by norm_num)).1,
    (C6_decode_roundtrip 200 0 0 0 0 (-56) 0 0 (by norm_num) (by norm_num)
      (by norm_num) (by norm_num) (by norm_num) (by norm_num) (by norm_num)
      (by norm_num) (by norm_num) (by norm_num) (by norm_num)).2.2.2.2.2.2.1⟩

/-- C7: dispatching a notification for a handle that matches no registered
item returns without raising, leaves the state (connection flag included)
untouched, and invokes no callback — the frame is only logged. -/
theorem C7_unknown_handle_dropped (s : AdsState) (hnotify : Nat)
    (data : List Nat)
    (h : ∀ it ∈ s.notification_items, it.hnotify ≠ hnotify) :
    device_notification_callback s hnotify data =
      .ok (s, [Effect.logDebug, Effect.logError]) := by
  have hfind : s.notification_items.find?
      (fun it => it.hnotify == hnotify) = none := by
    rw [List.find?_eq_none]
    intro it hit
    simpa using h it hit
  simp [device_notification_callback, hfind]

/-- Witness for C7 at a state holding an item under a different handle. -/
theorem C7_unknown_handle_witness :
    device_notification_callback
      ⟨true, 0, false, false, true, [⟨5, 7, "var", .int⟩]⟩ 9 [1, 2] =
      .ok (⟨true, 0, false, false, true, [⟨5, 7, "var", .int⟩]⟩,
        [Effect.logDebug, Effect.logError]) :=
  C7_unknown_handle_dropped ⟨true, 0, false, false, true, [⟨5, 7, "var", .int⟩]⟩ 9
    [1, 2] (by decide)

/-- C8: starting from a connected state, a failed health probe fires exactly
one `unavailable` observer broadcast; an immediately following failed probe
— another `check_connection` failure or a failed reconnection attempt —
fires none; a successful reconnection returns to the connected state with one
`available` broadcast, and only then does a subsequent failure fire exactly
one new `unavailable` broadcast. -/
theorem C8_one_notification_per_edge (s : AdsState)
    (h : s.connected = true) :
    countNotify false (check_connection s false).2.2 = 1 ∧
    countNotify false
      (check_connection (check_connection s false).2.1 false).2.2 = 0 ∧
    countNotify false
      (try_reconnect (check_connection s false).2.1 false false).2 = 0 ∧
    (try_reconnect (check_connection s false).2.1 true true).1.connected =
      true ∧
    countNotify true
      (try_reconnect (check_connection s false).2.1 true true).2 = 1 ∧
    countNotify false
      (check_connection
        (try_reconnect (check_connection s false).2.1 true true).1
        false).2.2 = 1 := by
  obtain ⟨c, n, rt, ul, hs, items⟩ := s
  cases h
  cases rt <;> cases ul <;> cases hs <;>
    simp [check_connection, try_reconnect, schedule_reconnect, countNotify,
      List.countP_cons]

/-- Witness for C8 at a concrete connected state. -/
theorem C8_one_notification_witness :
    countNotify false (check_connection sConn false).2.2 = 1 ∧
    countNotify false
      (check_connection (check_connection sConn false).2.1 false).2.2 = 0 ∧
    countNotify false
      (try_reconnect (check_connection sConn false).2.1 false false).2 = 0 ∧
    (try_reconnect (check_connection sConn false).2.1 true true).1.connected =
      true ∧
    countNotify true
      (try_reconnect (check_connection sConn false).2.1 true true).2 = 1 ∧
    countNotify false
      (check_connection
        (try_reconnect (check_connection sConn false).2.1 true true).1
        false).2.2 = 1 :=
  C8_one_notification_per_edge sConn rfl

/-- Helper: `takeWhile` stops exactly at the first element refuting the
predicate, returning the untouched prefix. -/
theorem takeWhile_append_stop (p : Nat → Bool) (pre suf : List Nat) (x : Nat)
    (hpre : ∀ b ∈ pre, p b = true) (hx : p x = false) :
    (pre ++ x :: suf).takeWhile p = pre := by
  induction pre with
  | nil => simp [List.takeWhile_cons, hx]
  | cons a t ih =>
    have ha : p a = true := hpre a (by simp)
    have ht : ∀ b ∈ t, p b = true := fun b hb => hpre b (by simp [hb])
    simp [List.takeWhile_cons, ha, ih ht]

/-- Helper: `takeWhile` keeps the whole list when every element satisfies the
predicate. -/
theorem takeWhile_of_all (p : Nat → Bool) (l : List Nat)
    (hl : ∀ b ∈ l, p b = true) : l.takeWhile p = l := by
  induction l with
  | nil => rfl
  | cons a t ih =>
    have ha : p a = true := hl a (by simp)
    have ht : ∀ b ∈ t, p b = true := fun b hb => hl b (by simp [hb])
    simp [List.takeWhile_cons, ha, ih ht]

/-- C9: decoding a buffer with the string tag never fails and yields the
UTF-8 text (with invalid bytes dropped) of exactly the bytes preceding the
first null byte — the whole buffer when no null is present; in particular the
5-byte buffer `"OK\x00\x00\x00"` decodes to the text `"OK"`, and an invalid
`0xC3` lead byte is dropped rather than failing. -/
theorem C9_string_first_null (pre suf data : List Nat)
    (hpre : ∀ b ∈ pre, b ≠ 0) (hdata : ∀ b ∈ data, b ≠ 0) :
    decodeValue .string (pre ++ 0 :: suf) =
      .ok (.vStr (utf8DecodeIgnore pre), false) ∧
    decodeValue .string data = .ok (.vStr (utf8DecodeIgnore data), false) ∧
    decodeValue .string [79, 75, 0, 0, 0] = .ok (.vStr "OK", false) ∧
    decodeValue .string [195, 79, 75, 0] = .ok (.vStr "OK", false) := by
  have h1 : (pre ++ 0 :: suf).takeWhile (fun b => b != 0) = pre :=
    takeWhile_append_stop _ pre suf 0
      (fun b hb => by simpa using hpre b hb) (by simp)
  have h2 : data.takeWhile (fun b => b != 0) = data :=
    takeWhile_of_all _ data (fun b hb => by simpa using hdata b hb)
  refine ⟨?_, ?_, rfl, rfl⟩
  · simp [decodeValue, h1]
  · simp [decodeValue, h2]

/-- Witness for C9 at a concrete buffer with an embedded null. -/
theorem C9_string_witness :
    decodeValue .string ([72, 105] ++ 0 :: [7]) =
      .ok (.vStr (utf8DecodeIgnore [72, 105]), false) ∧
    decodeValue .string [33] = .ok (.vStr (utf8DecodeIgnore [33]), false) ∧
    decodeValue .string [79, 75, 0, 0, 0] = .ok (.vStr "OK", false) ∧
    decodeValue .string [195, 79, 75, 0] = .ok (.vStr "OK", false) :=
  C9_string_first_null [72, 105] [7] [33] (by decide) (by decide)

/-- C10: at the public interface every failure of `read_by_name` and
`write_by_name` — NotConnected as well as transport protocol error — is
reported as the same value `None`, so the caller cannot tell the two error
classes apart from the result; and `add_device_notification` returns `None`
in every case (success, NotConnected, or protocol error), so a subscription
failure is not observable in its return value at all. -/
theorem C10_failures_indistinguishable (s1 s2 : AdsState)
    (tr trw : Except Unit (Option Value)) (trs trs2 : Except Unit (Nat × Nat))
    (name : String) (v : Value) (pt : PlcType)
    (h1 : s1.connected = false) (h2 : s2.connected = true) :
    (read_by_name s1 tr name pt).1 = none ∧
    (read_by_name s2 (.error ()) name pt).1 = none ∧
    (read_by_name s1 tr name pt).1 = (read_by_name s2 (.error ()) name pt).1 ∧
    (write_by_name s1 trw name v pt).1 = none ∧
    (write_by_name s2 (.error ()) name v pt).1 = none ∧
    (add_device_notification s1 trs name pt).1 = none ∧
    (add_device_notification s2 trs2 name pt).1 = none := by
  refine ⟨?_, ?_, ?_, ?_, ?_, ?_, ?_⟩ <;>
    first
      | simp [read_by_name, write_by_name, h1, h2]
      | (cases trs2 <;>
          simp [add_device_notification, h1, h2])

/-- Witness for C10 at concrete disconnected and connected states. -/
theorem C10_failures_witness :
    (read_by_name sDisc (.ok (some (.vInt 3))) "var" .int).1 = none ∧
    (read_by_name sConn (.error ()) "var" .int).1 = none ∧
    (read_by_name sDisc (.ok (some (.vInt 3))) "var" .int).1 =
      (read_by_name sConn (.error ()) "var" .int).1 ∧
    (write_by_name sDisc (.ok none) "var" (.vInt 3) .int).1 = none ∧
    (write_by_name sConn (.error ()) "var" (.vInt 3) .int).1 = none ∧
    (add_device_notification sDisc (.ok (4, 5)) "var" .int).1 = none ∧
    (add_device_notification sConn (.ok (4, 5)) "var" .int).1 = none :=
  C10_failures_indistinguishable sDisc sConn (.ok (some (.vInt 3)))
    (.ok none) (.ok (4, 5)) (.ok (4, 5)) "var" (.vInt 3) .int rfl rfl

end AdsHub
